import Mathlib

/-!
Verification of the file-based log store in `src/templates/python/app/main.py`
(`FileLogger._write_log`, `FileLogger._get_log_file`, the `log_requests`
middleware, the `health` handler and the `get_logs` endpoint).

The embedding keeps the Python control flow explicit:
  * JSON values decoded by `json.loads` are the inductive `Json`;
  * a physical line of a partition file is a `Line`: either it strips to a
    non-empty string that `json.loads` accepts (constructor `jsonLine`), or it
    strips to the empty string (`blankLine`), or `json.loads` raises
    (`badLine`);
  * Python exceptions inside `get_logs` are `Except PyErr`, distinguishing
    `ValueError` (caught by the inner `except ValueError: pass`) from every
    other exception (caught only by the outer handler, which returns the
    `{"error": "Failed to fetch logs"}` body, modelled as `Except.error ()`);
  * `datetime.fromisoformat` is an external library function; it enters as a
    parameter `parseIso : String → Option PyDatetime`, applied after the
    literal `.replace("Z", "+00:00")` from the source; a `PyDatetime` records
    whether the parsed value is offset-aware, because CPython's `>=` between
    an offset-naive and an offset-aware datetime raises `TypeError`;
  * `datetime.now()` enters as explicit `String` arguments (its `.isoformat()`
    for record timestamps, its `%Y-%m-%d` rendering for file names).
-/

/-- JSON values as produced by `json.loads` on one log line. -/
inductive Json where
  | null : Json
  | bool (b : Bool) : Json
  | num (n : Int) : Json
  | str (s : String) : Json
  | arr (elems : List Json) : Json
  | obj (fields : List (String × Json)) : Json
deriving Repr

/-- Python `dict` lookup for an object decoded by `json.loads`: with duplicate
keys the last occurrence wins, as in CPython's `json` module. Models
`log.get(key)` / `log[key]` on the decoded dict. -/
def jget (fields : List (String × Json)) (k : String) : Option Json :=
  match fields with
  | [] => none
  | (k', v) :: rest =>
    match jget rest k with
    | some r => some r
    | none => if k' = k then some v else none

/-- One physical line of a partition file, abstracted by what
`line.strip()` followed by `json.loads(line)` does to it. -/
inductive Line where
  | jsonLine (v : Json) : Line
  | blankLine : Line
  | badLine : Line
deriving Repr

/-- The parse loop of `get_logs` (main.py lines 111-120): strip each line,
skip empty lines, `json.loads` the rest, skip lines that raise
`json.JSONDecodeError`, collect the decoded values in file order. -/
def parseLines (lines : List Line) : List Json :=
  lines.filterMap fun l =>
    match l with
    | .jsonLine v => some v
    | _ => none

/-- Exceptions inside the `get_logs` body: `valueError` is what the inner
`except ValueError: pass` catches; `otherError` stands for every other
exception (`KeyError`, `TypeError`, `AttributeError`, ...), which only the
outer `except Exception` catches. -/
inductive PyErr where
  | valueError : PyErr
  | otherError : PyErr
deriving Repr

/-- Python truthiness of an `Optional[str]` query parameter: `if level:` /
`if since:` is false for `None` and for the empty string. -/
def strTruthy (o : Option String) : Bool :=
  match o with
  | none => false
  | some s => s ≠ ""

/-- Evaluation of `log.get("level")` on a decoded JSON value: succeeds only on
objects (Python dicts); any other decoded value has no `.get` attribute and
raises `AttributeError`. -/
def getLevelAttr (v : Json) : Except PyErr (Option Json) :=
  match v with
  | .obj fs => .ok (jget fs "level")
  | _ => .error .otherError

/-- Python equality `x == s` between an optional decoded JSON value and a
string: true exactly when the value is present and is that string
(`None == s` and `42 == s` are `False` in Python, not errors). -/
def isStrEq (o : Option Json) (s : String) : Bool :=
  match o with
  | some (.str t) => t = s
  | _ => false

/-- The level list comprehension (main.py line 123):
`[log for log in logs if log.get("level") == level.lower()]`, evaluated left
to right, the first exception aborting the whole comprehension. `lvlLower`
is the already-lowered `level.lower()`. -/
def filterLevel (lvlLower : String) (logs : List Json) : Except PyErr (List Json) :=
  match logs with
  | [] => .ok []
  | v :: rest =>
    match getLevelAttr v with
    | .error e => .error e
    | .ok o =>
      match filterLevel lvlLower rest with
      | .error e => .error e
      | .ok kept => .ok (if isStrEq o lvlLower then v :: kept else kept)

/-- Python's `str.lower()` as used on `level` query parameters and on the
`level` argument of `_write_log`: a per-character lowercasing (the level
strings involved are ASCII, where `str.lower()` is exactly this map). -/
def pyLower (s : String) : String :=
  ⟨s.data.map Char.toLower⟩

/-- The `if level:` guard and filter assignment (main.py lines 122-123). -/
def levelStage (level : Option String) (logs : List Json) : Except PyErr (List Json) :=
  match level with
  | none => .ok logs
  | some s => if s = "" then .ok logs else filterLevel (pyLower s) logs

/-- The `.replace('Z', '+00:00')` preprocessing applied to `since` and to
every record timestamp before `datetime.fromisoformat` (main.py lines
128-129). The pattern being the single character `Z`, Python's substring
replace coincides with this per-character substitution. -/
def replaceZ (s : String) : String :=
  ⟨s.data.foldr
    (fun c acc =>
      if c = 'Z' then '+' :: '0' :: '0' :: ':' :: '0' :: '0' :: acc
      else c :: acc) []⟩

/-- A value of CPython's `datetime.fromisoformat`: a datetime is either
offset-naive or offset-aware, and the instant itself is abstracted as an
`Int` totally ordered within each kind. -/
structure PyDatetime where
  aware : Bool
  val : Int
deriving Repr, DecidableEq

/-- The comparison `x >= y` between CPython datetimes (main.py line 128):
comparing an offset-naive with an offset-aware datetime raises `TypeError`
(an `otherError`, not caught by `except ValueError`); within one kind the
order is total. -/
def dtGe (x y : PyDatetime) : Except PyErr Bool :=
  if x.aware = y.aware then .ok (decide (y.val ≤ x.val))
  else .error .otherError

/-- Evaluation of
`datetime.fromisoformat(log["timestamp"].replace('Z', '+00:00'))` on one
decoded record (main.py line 128): subscripting a non-dict raises `TypeError`,
a missing key raises `KeyError`, `.replace` on a non-string raises
`AttributeError` (all `otherError`); `fromisoformat` on an unparseable string
raises `ValueError`. -/
def recordTs (parseIso : String → Option PyDatetime) (v : Json) :
    Except PyErr PyDatetime :=
  match v with
  | .obj fs =>
    match jget fs "timestamp" with
    | none => .error .otherError
    | some (.str s) =>
      match parseIso (replaceZ s) with
      | some t => .ok t
      | none => .error .valueError
    | some _ => .error .otherError
  | _ => .error .otherError

/-- The since list comprehension (main.py line 128): keep records whose
parsed timestamp compares `>= since_dt`, evaluated left to right — for each
record first the parse, then the comparison — with the first exception
aborting the whole comprehension. -/
def filterSince (parseIso : String → Option PyDatetime) (sinceDt : PyDatetime)
    (logs : List Json) : Except PyErr (List Json) :=
  match logs with
  | [] => .ok []
  | v :: rest =>
    match recordTs parseIso v with
    | .error e => .error e
    | .ok t =>
      match dtGe t sinceDt with
      | .error e => .error e
      | .ok keep =>
        match filterSince parseIso sinceDt rest with
        | .error e => .error e
        | .ok kept => .ok (if keep then v :: kept else kept)

/-- The `if since:` block (main.py lines 126-131): parse `since` (after the
`Z` replacement); a `ValueError` from either the parse of `since` itself or
from any record's timestamp is caught by `except ValueError: pass`, leaving
`logs` unchanged; any other exception propagates to the outer handler. -/
def sinceStage (parseIso : String → Option PyDatetime) (since : Option String)
    (logs : List Json) : Except PyErr (List Json) :=
  match since with
  | none => .ok logs
  | some s =>
    if s = "" then .ok logs
    else
      match parseIso (replaceZ s) with
      | none => .ok logs
      | some dt =>
        match filterSince parseIso dt logs with
        | .ok kept => .ok kept
        | .error .valueError => .ok logs
        | .error .otherError => .error .otherError

/-- Python's `xs[i:]` slice: a negative start counts from the end, clamped at
the start of the list; a start beyond the end yields the empty list. -/
def pySliceFrom (i : Int) (xs : List α) : List α :=
  if i < 0 then xs.drop ((xs.length : Int) + i).toNat
  else xs.drop i.toNat

/-- The filter pipeline of `get_logs` after the parse loop: level filter
(lines 122-123) then since filter (lines 126-131). -/
def filteredLogs (parseIso : String → Option PyDatetime) (lines : List Line)
    (level since : Option String) : Except PyErr (List Json) :=
  match levelStage level (parseLines lines) with
  | .error e => .error e
  | .ok l1 => sinceStage parseIso since l1

/-- The `get_logs` endpoint body (main.py lines 90-141): missing logs
directory or missing partition file returns `[]`; otherwise parse, filter,
and apply `logs = logs[-tail:]`; an uncaught exception reaches the outer
`except Exception` and the endpoint returns the
`{"error": "Failed to fetch logs"}` body, modelled as `Except.error ()`. -/
def get_logs (parseIso : String → Option PyDatetime) (dirExists fileExists : Bool)
    (lines : List Line) (tail : Int) (level since : Option String) :
    Except Unit (List Json) :=
  if !dirExists then .ok []
  else if !fileExists then .ok []
  else
    match filteredLogs parseIso lines level since with
    | .ok logs => .ok (pySliceFrom (-tail) logs)
    | .error _ => .error ()

/-- Outcome of the filesystem operations attempted by one `_write_log` call
(open in append mode plus the write): either the line is appended, or some
`OSError`-like exception is raised. -/
inductive DiskOutcome where
  | success : DiskOutcome
  | failure : DiskOutcome
deriving Repr

/-- Arguments reaching one `_write_log` call, with `datetime.now().isoformat()`
made explicit as `now`. `data or {}` is already resolved by the caller model
(`data := []` for callers passing no data). -/
structure WriteInput where
  now : String
  level : String
  message : String
  data : List (String × Json)
deriving Repr

/-- The `log_entry` dict built by `_write_log` (main.py lines 42-48), as the
JSON object its `json.dumps` serializes: `level` is lowercased at write time,
`service` is the logger's fixed service name. -/
def logEntryJson (service : String) (w : WriteInput) : Json :=
  .obj [("timestamp", .str w.now), ("level", .str (pyLower w.level)),
        ("service", .str service), ("message", .str w.message),
        ("data", .obj w.data)]

/-- The body of the `try` in `_write_log` (main.py lines 41-51): build the
entry and append its serialized form plus a newline to the partition file —
one new `jsonLine`; on an I/O failure the exception aborts the append with
nothing written. -/
def write_log_attempt (oc : DiskOutcome) (service : String) (file : List Line)
    (w : WriteInput) : Except Unit (List Line) :=
  match oc with
  | .success => .ok (file ++ [Line.jsonLine (logEntryJson service w)])
  | .failure => .error ()

/-- The whole of `_write_log` (main.py lines 40-53): the `except Exception`
swallows any failure (printing to the fallback channel) and leaves the
partition file as it was; the method always returns normally. -/
def write_log (oc : DiskOutcome) (service : String) (file : List Line)
    (w : WriteInput) : List Line :=
  match write_log_attempt oc service file w with
  | .ok f => f
  | .error _ => file

/-- A sequence of `_write_log` calls with successful disk writes, in order. -/
def appendAll (service : String) (ws : List WriteInput) (file : List Line) :
    List Line :=
  ws.foldl (fun f w => write_log .success service f w) file

/-- The request data the `log_requests` middleware reads (main.py lines
75-80); `client_host` already carries the `'unknown'` fallback. -/
structure RequestInfo where
  method : String
  path : String
  query_params : List (String × Json)
  client_host : String
deriving Repr

/-- The `WriteInput` built by `file_logger.info(...)` inside `log_requests`
(main.py lines 75-80). -/
def request_log_input (now : String) (req : RequestInfo) : WriteInput :=
  { now := now, level := "info",
    message := req.method ++ " " ++ req.path,
    data := [("method", .str req.method), ("path", .str req.path),
             ("query_params", .obj req.query_params),
             ("client_host", .str req.client_host)] }

/-- The `log_requests` middleware (main.py lines 73-83): one
`file_logger.info` call, then `await call_next(request)` whose response is
returned unchanged. The handler's response is the `resp` argument. -/
def log_requests {α : Type} (oc : DiskOutcome) (service : String)
    (file : List Line) (now : String) (req : RequestInfo) (resp : α) :
    List Line × α :=
  (write_log oc service file (request_log_input now req), resp)

/-- The response body of the `health` handler (main.py line 88). -/
def health_body (service : String) : Json :=
  .obj [("status", .str "ok"), ("service", .str service)]

/-- The `WriteInput` of the `file_logger.info("Health check requested")` call
inside the `health` handler (main.py line 87); no `data` argument, so
`data or {}` yields the empty mapping. -/
def health_log_input (now : String) : WriteInput :=
  { now := now, level := "info", message := "Health check requested",
    data := [] }

/-- The `health` handler body (main.py lines 85-88): one `file_logger.info`
call, then the constant body. -/
def health (oc : DiskOutcome) (service : String) (file : List Line)
    (now : String) : List Line × Json :=
  (write_log oc service file (health_log_input now), health_body service)

/-- A full `GET /health` request through the app: the `log_requests`
middleware appends its request record, then the `health` handler runs (with
its own log call), and the middleware returns the handler's response
unchanged. `oc1` is the disk outcome of the middleware's append, `oc2` of the
handler's. -/
def handle_health_request (oc1 oc2 : DiskOutcome) (service : String)
    (file : List Line) (now1 now2 : String) (req : RequestInfo) :
    List Line × Json :=
  let file1 := write_log oc1 service file (request_log_input now1 req)
  let handlerOut := health oc2 service file1 now2
  (handlerOut.1, handlerOut.2)

/-- Wall-clock readings relevant to partition naming: the same instant
rendered as a calendar date (`%Y-%m-%d`) in the process-local timezone
(what `datetime.now()` gives) and in UTC. -/
structure Clock where
  localDate : String
  utcDate : String
deriving Repr

/-- `FileLogger._get_log_file` (main.py lines 36-38): the partition file name
is `datetime.now().strftime("%Y-%m-%d")` — the local calendar date — with a
`.log` suffix. -/
def get_log_file_name (c : Clock) : String :=
  c.localDate ++ ".log"

/-- The partition file name computed inside `get_logs` (main.py lines
104-105): same local date, same `.log` suffix. -/
def query_log_file_name (c : Clock) : String :=
  c.localDate ++ ".log"

/-- Helper predicate: the decoded value is a JSON object (a Python dict). -/
def isObj (v : Json) : Bool :=
  match v with
  | .obj _ => true
  | _ => false

/-- Helper predicate: the stored level of a decoded object equals `t`. -/
def levelIs (v : Json) (t : String) : Bool :=
  match v with
  | .obj fs => isStrEq (jget fs "level") t
  | _ => false

/-- Stand-in for `datetime.fromisoformat` restricted to the concrete strings
exercised by the counterexamples and witnesses below: the two plain sample
timestamps parse as offset-naive datetimes, the `+00:00` form parses as
offset-aware, and every other string raises `ValueError`. -/
def demoParseIso (s : String) : Option PyDatetime :=
  if s = "2024-01-01T00:00:00" then some ⟨false, 0⟩
  else if s = "2024-01-01T00:00:00+00:00" then some ⟨true, 0⟩
  else if s = "2024-06-01T12:00:00" then some ⟨false, 200⟩
  else none

/-- Helper predicate: the decoded value is an object with a string-valued
`timestamp` that either fails to parse (a catchable `ValueError`) or parses
to a datetime of awareness `sinceAware`, so that processing it in the since
comprehension can only raise `ValueError` — never `KeyError`,
`AttributeError`, or the comparison `TypeError`. -/
def tsSafe (parseIso : String → Option PyDatetime) (sinceAware : Bool)
    (v : Json) : Bool :=
  match v with
  | .obj fs =>
    match jget fs "timestamp" with
    | some (.str s) =>
      match parseIso (replaceZ s) with
      | some d => d.aware = sinceAware
      | none => true
    | _ => false
  | _ => false

/-- Helper predicate: the decoded value is an object whose string `timestamp`
fails to parse after the `Z` replacement. -/
def tsUnparseable (parseIso : String → Option PyDatetime) (v : Json) : Bool :=
  match v with
  | .obj fs =>
    match jget fs "timestamp" with
    | some (.str s) => (parseIso (replaceZ s)).isNone
    | _ => false
  | _ => false


/-! ## Helper lemmas -/

theorem pySliceFrom_neg_of_le {α : Type} (tail : Int) (xs : List α)
    (h : (xs.length : Int) ≤ tail) : pySliceFrom (-tail) xs = xs := by
  unfold pySliceFrom
  by_cases h0 : (-tail : Int) < 0
  · have hz : ((xs.length : Int) + -tail).toNat = 0 := by omega
    simp [h0, hz]
  · have hx : xs.length = 0 := by omega
    have ht : (-tail : Int).toNat = 0 := by omega
    simp [h0, ht, List.length_eq_zero.mp hx]

theorem pySliceFrom_neg_pos {α : Type} (tail : Int) (xs : List α)
    (h : 1 ≤ tail) : pySliceFrom (-tail) xs = xs.drop (xs.length - tail.toNat) := by
  unfold pySliceFrom
  have h0 : (-tail : Int) < 0 := by omega
  rw [if_pos h0]
  congr 1
  omega

theorem appendAll_eq (service : String) (ws : List WriteInput) (file : List Line) :
    appendAll service ws file
      = file ++ ws.map (fun w => Line.jsonLine (logEntryJson service w)) := by
  induction ws generalizing file with
  | nil => simp [appendAll]
  | cons w rest ih =>
    have h1 : appendAll service (w :: rest) file
        = appendAll service rest (file ++ [Line.jsonLine (logEntryJson service w)]) := rfl
    rw [h1, ih]
    simp

theorem parseLines_append (a b : List Line) :
    parseLines (a ++ b) = parseLines a ++ parseLines b := by
  simp [parseLines]

theorem parseLines_entries (service : String) (ws : List WriteInput) :
    parseLines (ws.map fun w => Line.jsonLine (logEntryJson service w))
      = ws.map (logEntryJson service) := by
  induction ws with
  | nil => rfl
  | cons w rest ih =>
    simp only [List.map_cons, parseLines, List.filterMap_cons] at *
    rw [ih]

/-! ## Claims -/

/-- C1: all records appended via `_write_log` into an initially empty
partition on one day are returned, in append order, by a `get_logs` query
with no level or since filter and `tail` at least the number of records. -/
theorem append_then_query_returns_all (parseIso : String → Option PyDatetime)
    (service : String) (ws : List WriteInput) (tail : Int)
    (h : (ws.length : Int) ≤ tail) :
    get_logs parseIso true true (appendAll service ws []) tail none none
      = .ok (ws.map (logEntryJson service)) := by
  have hfile : appendAll service ws []
      = ws.map fun w => Line.jsonLine (logEntryJson service w) := by
    simpa using appendAll_eq service ws []
  rw [hfile]
  have hred : get_logs parseIso true true
      (ws.map fun w => Line.jsonLine (logEntryJson service w)) tail none none
      = .ok (pySliceFrom (-tail)
          (parseLines (ws.map fun w => Line.jsonLine (logEntryJson service w)))) := rfl
  rw [hred, parseLines_entries, pySliceFrom_neg_of_le]
  simpa using h

/-- Witness for C1 at a concrete two-record history with `tail = 5`. -/
theorem append_then_query_returns_all_witness :
    ((([⟨"t1", "INFO", "m1", []⟩, ⟨"t2", "error", "m2", []⟩] :
        List WriteInput).length : Int) ≤ 5) ∧
    get_logs (fun _ => none) true true
        (appendAll "python" [⟨"t1", "INFO", "m1", []⟩, ⟨"t2", "error", "m2", []⟩] [])
        5 none none
      = .ok (([⟨"t1", "INFO", "m1", []⟩, ⟨"t2", "error", "m2", []⟩] :
          List WriteInput).map (logEntryJson "python")) :=
  ⟨by decide,
   append_then_query_returns_all (fun _ => none) "python"
     [⟨"t1", "INFO", "m1", []⟩, ⟨"t2", "error", "m2", []⟩] 5 (by decide)⟩

/-- C2: a query with positive `tail = N` whose filter pipeline succeeds on
list `l2` returns exactly the last `min N l2.length` filtered records, in
file order — never more than `N`. -/
theorem query_tail_returns_min (parseIso : String → Option PyDatetime)
    (lines : List Line) (tail : Int) (level since : Option String)
    (l2 : List Json) (htail : 1 ≤ tail)
    (hfl : filteredLogs parseIso lines level since = .ok l2) :
    get_logs parseIso true true lines tail level since
        = .ok (l2.drop (l2.length - tail.toNat)) ∧
      (l2.drop (l2.length - tail.toNat)).length = min tail.toNat l2.length := by
  constructor
  · have hred : get_logs parseIso true true lines tail level since
        = (match filteredLogs parseIso lines level since with
           | .ok logs => .ok (pySliceFrom (-tail) logs)
           | .error _ => .error ()) := rfl
    rw [hred, hfl]
    show Except.ok (pySliceFrom (-tail) l2)
        = Except.ok (l2.drop (l2.length - tail.toNat))
    rw [pySliceFrom_neg_pos _ _ htail]
  · rw [List.length_drop]
    omega

/-- Witness for C2: two records, `tail = 1`, no filters. -/
theorem query_tail_returns_min_witness :
    (1 : Int) ≤ 1 ∧
    filteredLogs (fun _ => none)
        [Line.jsonLine (Json.obj [("level", Json.str "info")]),
         Line.jsonLine (Json.obj [("level", Json.str "error")])] none none
      = .ok [Json.obj [("level", Json.str "info")],
             Json.obj [("level", Json.str "error")]] ∧
    get_logs (fun _ => none) true true
        [Line.jsonLine (Json.obj [("level", Json.str "info")]),
         Line.jsonLine (Json.obj [("level", Json.str "error")])] 1 none none
      = .ok ([Json.obj [("level", Json.str "info")],
              Json.obj [("level", Json.str "error")]].drop
          ([Json.obj [("level", Json.str "info")],
            Json.obj [("level", Json.str "error")]].length - (1 : Int).toNat)) :=
  ⟨le_refl 1, rfl,
   (query_tail_returns_min (fun _ => none)
     [Line.jsonLine (Json.obj [("level", Json.str "info")]),
      Line.jsonLine (Json.obj [("level", Json.str "error")])] 1 none none
     [Json.obj [("level", Json.str "info")],
      Json.obj [("level", Json.str "error")]] (le_refl 1) rfl).1⟩

/-- C5: when the `since` string fails to parse (after the `Z` replacement),
`get_logs` returns exactly what the identical query with `since` omitted
returns. -/
theorem unparseable_since_ignored (parseIso : String → Option PyDatetime)
    (dirExists fileExists : Bool) (lines : List Line) (tail : Int)
    (level : Option String) (s : String)
    (hs : parseIso (replaceZ s) = none) :
    get_logs parseIso dirExists fileExists lines tail level (some s)
      = get_logs parseIso dirExists fileExists lines tail level none := by
  have hf : filteredLogs parseIso lines level (some s)
      = filteredLogs parseIso lines level none := by
    unfold filteredLogs
    cases hlv : levelStage level (parseLines lines) with
    | error e => rfl
    | ok l1 =>
      unfold sinceStage
      by_cases hse : s = ""
      · simp [hse]
      · simp [hse, hs]
  unfold get_logs
  rw [hf]

/-- Witness for C5 at `since = "garbage"` on a one-record file. -/
theorem unparseable_since_ignored_witness :
    (fun _ => (none : Option PyDatetime)) (replaceZ "garbage") = none ∧
    get_logs (fun _ => none) true true
        [Line.jsonLine (Json.obj [("level", Json.str "info")])] 50 none
        (some "garbage")
      = get_logs (fun _ => none) true true
          [Line.jsonLine (Json.obj [("level", Json.str "info")])] 50 none none :=
  ⟨rfl,
   unparseable_since_ignored (fun _ => none) true true
     [Line.jsonLine (Json.obj [("level", Json.str "info")])] 50 none "garbage" rfl⟩

/-- C6: `_write_log` always returns normally — on a disk failure the
exception is swallowed by its `except Exception` and the partition file is
untouched — and the `log_requests` middleware returns the handler's response
unchanged for every disk outcome, so a logging failure never reaches the
request path. -/
theorem write_failure_swallowed {α : Type} (oc : DiskOutcome) (service : String)
    (file : List Line) (now : String) (req : RequestInfo) (resp : α)
    (w : WriteInput) :
    (log_requests oc service file now req resp).2 = resp ∧
    (log_requests DiskOutcome.failure service file now req resp).1 = file ∧
    write_log DiskOutcome.failure service file w = file :=
  ⟨rfl, rfl, rfl⟩

/-- C7: a line that does not parse as JSON is invisible to `get_logs`: the
query over a file containing it returns exactly what the query over the file
without it returns, for every combination of `tail`, `level` and `since` —
the line is skipped, never output, not counted toward `tail`, and the
surrounding well-formed lines keep their order. -/
theorem malformed_line_invisible (parseIso : String → Option PyDatetime)
    (dirExists fileExists : Bool) (pre post : List Line) (tail : Int)
    (level since : Option String) :
    get_logs parseIso dirExists fileExists (pre ++ [Line.badLine] ++ post)
        tail level since
      = get_logs parseIso dirExists fileExists (pre ++ post) tail level since := by
  have hp : parseLines (pre ++ [Line.badLine] ++ post) = parseLines (pre ++ post) := by
    rw [parseLines_append, parseLines_append, parseLines_append]
    simp [parseLines]
  unfold get_logs filteredLogs
  rw [hp]

/-- Counterexample to C8: a concrete `GET /health` request with both disk
writes succeeding appends two records to the empty partition, not one — the
middleware's request record plus the handler's own `"Health check requested"`
record from `file_logger.info` inside `health`. -/
theorem health_two_appends_counterexample :
    (handle_health_request DiskOutcome.success DiskOutcome.success "python" []
        "t1" "t2" ⟨"GET", "/health", [], "127.0.0.1"⟩).1.length = 2 ∧
    (2 : Nat) ≠ 1 :=
  ⟨rfl, by decide⟩

/-- C8 amended: a `GET /health` request returns the body
`{"status": "ok", "service": <service>}` whatever the disk outcomes, and when
both writes succeed it has the side effect of exactly two Appends: the
middleware's request record followed by the handler's health-check record. -/
theorem health_request_body_and_appends (oc1 oc2 : DiskOutcome)
    (service : String) (file : List Line) (now1 now2 : String)
    (req : RequestInfo) :
    (handle_health_request oc1 oc2 service file now1 now2 req).2
        = health_body service ∧
    (handle_health_request DiskOutcome.success DiskOutcome.success service file
        now1 now2 req).1
      = file ++ [Line.jsonLine (logEntryJson service (request_log_input now1 req)),
                 Line.jsonLine (logEntryJson service (health_log_input now2))] := by
  constructor
  · rfl
  · simp [handle_health_request, health, write_log, write_log_attempt]

/-- Counterexample to C9: at a clock whose local calendar date is
`2024-01-15` while the UTC calendar date is `2024-01-16`,
`FileLogger._get_log_file` names the partition `2024-01-15.log` — the local
date with a `.log` suffix — which is neither the UTC date string nor even
the bare local date. -/
theorem partition_name_counterexample :
    get_log_file_name ⟨"2024-01-15", "2024-01-16"⟩ = "2024-01-15.log" ∧
    ("2024-01-15.log" : String) ≠ "2024-01-16" ∧
    ("2024-01-15.log" : String) ≠ "2024-01-15" := by
  refine ⟨?_, by decide, by decide⟩
  decide

/-- C9 amended: both `_get_log_file` and the file name computed inside
`get_logs` name the partition by the process-local calendar date (which is
the UTC date only when the process timezone is UTC) with a `.log` suffix, so
Append and Query address the same file for the same clock reading. -/
theorem partition_named_by_local_date (c : Clock) :
    get_log_file_name c = c.localDate ++ ".log" ∧
    query_log_file_name c = get_log_file_name c :=
  ⟨rfl, rfl⟩

/-- Counterexample to C3: a record stored with level `"Error"` matches the
filter `"ERROR"` case-insensitively — both lowercase to `"error"` — yet the
query excludes it, because the code lowercases only the query parameter and
compares it to the stored level case-sensitively. -/
theorem level_filter_counterexample :
    get_logs (fun _ => none) true true
        [Line.jsonLine (Json.obj [("level", Json.str "Error")])] 10
        (some "ERROR") none = .ok [] ∧
    pyLower "Error" = pyLower "ERROR" ∧
    (Except.ok ([] : List Json) : Except Unit (List Json))
      ≠ .ok [Json.obj [("level", Json.str "Error")]] := by
  refine ⟨rfl, rfl, ?_⟩
  simp

/-- Helper: over JSON objects the level comprehension never raises and keeps
exactly the records whose stored `level` equals the compared string. -/
theorem filterLevel_objs (t : String) : ∀ (logs : List Json),
    (∀ v ∈ logs, isObj v = true) →
    filterLevel t logs = .ok (logs.filter fun v => levelIs v t) := by
  intro logs
  induction logs with
  | nil => intro _; rfl
  | cons v rest ih =>
    intro hobj
    have hv : isObj v = true := hobj v (List.mem_cons_self v rest)
    have hrest : ∀ w ∈ rest, isObj w = true :=
      fun w hw => hobj w (List.mem_cons_of_mem v hw)
    cases v with
    | obj fs =>
      simp only [filterLevel, getLevelAttr, ih hrest, List.filter_cons]
      by_cases hc : isStrEq (jget fs "level") t = true
      · simp [levelIs, hc]
      · simp [levelIs, hc]
    | null => simp [isObj] at hv
    | bool b => simp [isObj] at hv
    | num n => simp [isObj] at hv
    | str u => simp [isObj] at hv
    | arr xs => simp [isObj] at hv

/-- C3 amended: with a non-empty level filter, over records that are JSON
objects, a record is retained if and only if its stored `level` value is the
string equal to the lowercased filter — the filter parameter is matched
case-insensitively, but the stored level case-sensitively (it was lowercased
at write time by `_write_log`; a record stored with any other casing is
excluded). -/
theorem level_filter_exact_lower (s : String) (logs : List Json)
    (hs : s ≠ "") (hobj : ∀ v ∈ logs, isObj v = true) :
    levelStage (some s) logs
      = .ok (logs.filter fun v => levelIs v (pyLower s)) := by
  simp only [levelStage]
  rw [if_neg hs]
  exact filterLevel_objs (pyLower s) logs hobj

/-- Witness for the amended C3 at filter `"ERROR"` over two records. -/
theorem level_filter_exact_lower_witness :
    ("ERROR" : String) ≠ "" ∧
    (∀ v ∈ [Json.obj [("level", Json.str "error")],
            Json.obj [("level", Json.str "info")]], isObj v = true) ∧
    levelStage (some "ERROR")
        [Json.obj [("level", Json.str "error")],
         Json.obj [("level", Json.str "info")]]
      = .ok ([Json.obj [("level", Json.str "error")],
              Json.obj [("level", Json.str "info")]].filter
          fun v => levelIs v (pyLower "ERROR")) :=
  ⟨by decide, by decide,
   level_filter_exact_lower "ERROR"
     [Json.obj [("level", Json.str "error")],
      Json.obj [("level", Json.str "info")]] (by decide) (by decide)⟩

/-- Helper: when both filter stages succeed, `get_logs` returns the Python
tail slice of the since stage's output. -/
theorem get_logs_of_stages (parseIso : String → Option PyDatetime)
    (lines : List Line) (tail : Int) (level since : Option String)
    (kept l2 : List Json)
    (h1 : levelStage level (parseLines lines) = .ok kept)
    (h2 : sinceStage parseIso since kept = .ok l2) :
    get_logs parseIso true true lines tail level since
      = .ok (pySliceFrom (-tail) l2) := by
  have hf : filteredLogs parseIso lines level since = .ok l2 := by
    unfold filteredLogs
    rw [h1]
    exact h2
  unfold get_logs
  rw [hf]
  rfl

/-- Counterexample to C4: with a parseable `since`, a JSON object that lacks
a `timestamp` field makes `log["timestamp"]` raise `KeyError`, which escapes
the inner `except ValueError` and reaches the outer handler — the query
returns the `{"error": ...}` body instead of passing the object through. -/
theorem schema_tolerance_counterexample :
    get_logs demoParseIso true true
        [Line.jsonLine (Json.obj [("level", Json.str "info")])] 50 none
        (some "2024-01-01T00:00:00")
      = .error () ∧
    (Except.error () : Except Unit (List Json))
      ≠ .ok [Json.obj [("level", Json.str "info")]] := by
  refine ⟨rfl, ?_⟩
  simp

/-- C4 amended: over a partition whose parsed lines are all JSON objects —
of arbitrary shape, well-formed LogRecords or not — the query succeeds for
every `tail` and every `level` filter whenever no since filter is in effect
(`since` absent, empty, or unparseable): each object is handled opaquely
(`dict.get` never raises) and the result is the tail of the level-filtered
sequence. Only a parseable `since` over a surviving record without a string
`timestamp` field (or a filter over a non-object JSON value) can make the
query fail, as the counterexample shows. -/
theorem schema_tolerant_without_since (parseIso : String → Option PyDatetime)
    (lines : List Line) (tail : Int) (level : Option String) (s : String)
    (hobj : ∀ v ∈ parseLines lines, isObj v = true)
    (hs : parseIso (replaceZ s) = none) :
    ∃ kept : List Json,
      levelStage level (parseLines lines) = .ok kept ∧
      get_logs parseIso true true lines tail level none
        = .ok (pySliceFrom (-tail) kept) ∧
      get_logs parseIso true true lines tail level (some s)
        = .ok (pySliceFrom (-tail) kept) := by
  obtain ⟨kept, hkept⟩ : ∃ kept, levelStage level (parseLines lines) = .ok kept := by
    cases level with
    | none => exact ⟨parseLines lines, rfl⟩
    | some t =>
      by_cases ht : t = ""
      · refine ⟨parseLines lines, ?_⟩
        simp [levelStage, ht]
      · refine ⟨(parseLines lines).filter fun v => levelIs v (pyLower t), ?_⟩
        simp only [levelStage]
        rw [if_neg ht]
        exact filterLevel_objs (pyLower t) (parseLines lines) hobj
  have hn : sinceStage parseIso none kept = .ok kept := rfl
  have hsome : sinceStage parseIso (some s) kept = .ok kept := by
    unfold sinceStage
    by_cases hse : s = ""
    · simp [hse]
    · simp [hse, hs]
  exact ⟨kept, hkept,
    get_logs_of_stages parseIso lines tail level none kept kept hkept hn,
    get_logs_of_stages parseIso lines tail level (some s) kept kept hkept hsome⟩

/-- Witness for the amended C4: a level-present query over objects that are
not well-formed LogRecords, with a malformed line interleaved. -/
theorem schema_tolerant_without_since_witness :
    (∀ v ∈ parseLines [Line.jsonLine (Json.obj [("level", Json.str "info")]),
                       Line.badLine, Line.jsonLine (Json.obj [])],
        isObj v = true) ∧
    (fun _ => (none : Option PyDatetime)) (replaceZ "garbage") = none ∧
    (∃ kept : List Json,
      levelStage (some "INFO")
          (parseLines [Line.jsonLine (Json.obj [("level", Json.str "info")]),
                       Line.badLine, Line.jsonLine (Json.obj [])])
        = .ok kept ∧
      get_logs (fun _ => none) true true
          [Line.jsonLine (Json.obj [("level", Json.str "info")]),
           Line.badLine, Line.jsonLine (Json.obj [])] 50 (some "INFO") none
        = .ok (pySliceFrom (-(50 : Int)) kept) ∧
      get_logs (fun _ => none) true true
          [Line.jsonLine (Json.obj [("level", Json.str "info")]),
           Line.badLine, Line.jsonLine (Json.obj [])] 50 (some "INFO")
          (some "garbage")
        = .ok (pySliceFrom (-(50 : Int)) kept)) :=
  ⟨by decide, rfl,
   schema_tolerant_without_since (fun _ => none)
     [Line.jsonLine (Json.obj [("level", Json.str "info")]),
      Line.badLine, Line.jsonLine (Json.obj [])] 50 (some "INFO") "garbage"
     (by decide) rfl⟩

/-- Counterexample to C10 at two inputs. First: the second record's
timestamp `"garbage"` does not parse, so the claim says the since filter is
dropped and the query returns both records as with `since` omitted; but the
first record, which lacks a `timestamp` field, raises `KeyError` before any
`ValueError` can occur, and the query returns the error body instead.
Second: with the offset-aware `since` value `"2024-01-01T00:00:00Z"`, the
first record's offset-naive timestamp parses but its `>=` comparison raises
`TypeError`, so the query again returns the error body even though the
second record's timestamp is unparseable. -/
theorem since_drop_counterexample :
    get_logs demoParseIso true true
        [Line.jsonLine (Json.obj []),
         Line.jsonLine (Json.obj [("timestamp", Json.str "garbage")])] 50 none
        (some "2024-01-01T00:00:00")
      = .error () ∧
    get_logs demoParseIso true true
        [Line.jsonLine (Json.obj []),
         Line.jsonLine (Json.obj [("timestamp", Json.str "garbage")])] 50 none
        none
      = .ok [Json.obj [], Json.obj [("timestamp", Json.str "garbage")]] ∧
    get_logs demoParseIso true true
        [Line.jsonLine (Json.obj [("timestamp", Json.str "2024-06-01T12:00:00")]),
         Line.jsonLine (Json.obj [("timestamp", Json.str "garbage")])] 50 none
        (some "2024-01-01T00:00:00Z")
      = .error () ∧
    (Except.error () : Except Unit (List Json))
      ≠ .ok [Json.obj [], Json.obj [("timestamp", Json.str "garbage")]] := by
  refine ⟨rfl, rfl, rfl, ?_⟩
  simp

/-- Helper: over records whose timestamps, when they parse, are comparable
with the since datetime, the since comprehension raises `ValueError` as soon
as one timestamp fails to parse. -/
theorem filterSince_valueError (parseIso : String → Option PyDatetime)
    (dt : PyDatetime) :
    ∀ (l : List Json), (∀ v ∈ l, tsSafe parseIso dt.aware v = true) →
    (∃ v ∈ l, tsUnparseable parseIso v = true) →
    filterSince parseIso dt l = .error .valueError := by
  intro l
  induction l with
  | nil =>
    intro _ hex
    rcases hex with ⟨v, hv, _⟩
    cases hv
  | cons v rest ih =>
    intro hall hex
    have hv : tsSafe parseIso dt.aware v = true :=
      hall v (List.mem_cons_self v rest)
    have hrest : ∀ w ∈ rest, tsSafe parseIso dt.aware w = true :=
      fun w hw => hall w (List.mem_cons_of_mem v hw)
    cases v with
    | obj fs =>
      cases hts : jget fs "timestamp" with
      | none => simp [tsSafe, hts] at hv
      | some tv =>
        cases tv with
        | str s =>
          cases hp : parseIso (replaceZ s) with
          | none =>
            simp [filterSince, recordTs, hts, hp]
          | some d =>
            have haw : d.aware = dt.aware := by
              simpa [tsSafe, hts, hp] using hv
            have hnext : ∃ w ∈ rest, tsUnparseable parseIso w = true := by
              rcases hex with ⟨w, hw, hwp⟩
              rcases List.mem_cons.mp hw with hweq | hwrest
              · subst hweq
                simp [tsUnparseable, hts, hp] at hwp
              · exact ⟨w, hwrest, hwp⟩
            simp [filterSince, recordTs, hts, hp, dtGe, haw, ih hrest hnext]
        | null => simp [tsSafe, hts] at hv
        | bool b => simp [tsSafe, hts] at hv
        | num n => simp [tsSafe, hts] at hv
        | arr xs => simp [tsSafe, hts] at hv
        | obj gs => simp [tsSafe, hts] at hv
    | null => simp [tsSafe] at hv
    | bool b => simp [tsSafe] at hv
    | num n => simp [tsSafe] at hv
    | str u => simp [tsSafe] at hv
    | arr xs => simp [tsSafe] at hv

/-- C10 amended: with a parseable non-empty `since`, if every record
surviving the level filter carries a string-valued `timestamp` that either
fails to parse or parses to a datetime of the same offset-awareness as the
parsed `since` (so no `KeyError`, `AttributeError` or comparison `TypeError`
can fire first), and at least one of those timestamps fails to parse, the
entire since filter is silently dropped: the query returns exactly what the
same query with `since` omitted returns, including records strictly earlier
than `since`. (If instead a surviving record has a missing or non-string
`timestamp`, or one that parses with mismatched awareness, the query fails
with the error body, as the counterexample's two inputs show.) -/
theorem since_dropped_on_unparseable_ts (parseIso : String → Option PyDatetime)
    (lines : List Line) (tail : Int) (level : Option String) (s : String)
    (dt : PyDatetime) (l1 : List Json)
    (hlv : levelStage level (parseLines lines) = .ok l1)
    (hs : s ≠ "") (hp : parseIso (replaceZ s) = some dt)
    (hall : ∀ v ∈ l1, tsSafe parseIso dt.aware v = true)
    (hex : ∃ v ∈ l1, tsUnparseable parseIso v = true) :
    get_logs parseIso true true lines tail level (some s)
      = get_logs parseIso true true lines tail level none := by
  have hss : sinceStage parseIso (some s) l1 = .ok l1 := by
    simp only [sinceStage, if_neg hs, hp,
      filterSince_valueError parseIso dt l1 hall hex]
  have hf : filteredLogs parseIso lines level (some s)
      = filteredLogs parseIso lines level none := by
    unfold filteredLogs
    rw [hlv]
    show sinceStage parseIso (some s) l1 = sinceStage parseIso none l1
    rw [hss]
    rfl
  unfold get_logs
  rw [hf]

/-- Witness for the amended C10: an offset-naive `since`, one record with a
parseable offset-naive timestamp and one with an unparseable timestamp. -/
theorem since_dropped_on_unparseable_ts_witness :
    levelStage none (parseLines
        [Line.jsonLine (Json.obj [("timestamp", Json.str "2024-01-01T00:00:00")]),
         Line.jsonLine (Json.obj [("timestamp", Json.str "garbage")])])
      = .ok [Json.obj [("timestamp", Json.str "2024-01-01T00:00:00")],
             Json.obj [("timestamp", Json.str "garbage")]] ∧
    ("2024-01-01T00:00:00" : String) ≠ "" ∧
    demoParseIso (replaceZ "2024-01-01T00:00:00")
      = some ⟨false, 0⟩ ∧
    (∀ v ∈ [Json.obj [("timestamp", Json.str "2024-01-01T00:00:00")],
            Json.obj [("timestamp", Json.str "garbage")]],
        tsSafe demoParseIso false v = true) ∧
    (∃ v ∈ [Json.obj [("timestamp", Json.str "2024-01-01T00:00:00")],
            Json.obj [("timestamp", Json.str "garbage")]],
        tsUnparseable demoParseIso v = true) ∧
    get_logs demoParseIso true true
        [Line.jsonLine (Json.obj [("timestamp", Json.str "2024-01-01T00:00:00")]),
         Line.jsonLine (Json.obj [("timestamp", Json.str "garbage")])] 50 none
        (some "2024-01-01T00:00:00")
      = get_logs demoParseIso true true
          [Line.jsonLine (Json.obj [("timestamp", Json.str "2024-01-01T00:00:00")]),
           Line.jsonLine (Json.obj [("timestamp", Json.str "garbage")])] 50 none
          none :=
  ⟨rfl, by decide, by decide, by decide, by decide,
   since_dropped_on_unparseable_ts demoParseIso
     [Line.jsonLine (Json.obj [("timestamp", Json.str "2024-01-01T00:00:00")]),
      Line.jsonLine (Json.obj [("timestamp", Json.str "garbage")])] 50 none
     "2024-01-01T00:00:00" ⟨false, 0⟩
     [Json.obj [("timestamp", Json.str "2024-01-01T00:00:00")],
      Json.obj [("timestamp", Json.str "garbage")]]
     rfl (by decide) (by decide) (by decide) (by decide)⟩
